import Mathlib

/- Shallow embedding of fieldmask/src/maskable.rs.

The Rust source defines, for any maskable type, a mask shape, a mask
deserializer, an unconditional applier (AbsoluteMaskable), and an
optional-aware applier (OptionalMaskable) that additionally reports whether
the merged result should count as present.  A blanket impl derives the
optional-aware applier from the unconditional one (always reporting true),
and the Option instance implements the four-way presence-combination merge.
The maskable! macro instantiates the scalar terminals u32 and String.

Mutation through `&mut self` is modelled by returning the new value; the
mutable mask accumulator of deserialize_mask is modelled by returning the
resulting mask together with the optional error. -/

/-- Error type of mask deserialization: the type name being parsed, the
offending path segment, and the nesting depth of the mismatch. -/
structure DeserializeMaskError where
  type_str : String
  field : String
  depth : Nat
deriving DecidableEq, Repr

/-- Display message of a DeserializeMaskError, from the thiserror derive
attribute in the source, which formats the raw string
there\x27s no "{field}" in backtick{type_str}backtick. -/
def displayMessage (e : DeserializeMaskError) : String :=
  "there\x27s no \"" ++ e.field ++ "\" in `" ++ e.type_str ++ "`"

/-- Maskable::deserialize_mask generated by the maskable! macro for a scalar
terminal whose stringified type name is typeStr.  An empty segment list sets
the boolean mask flag to true and succeeds; a non-empty list fails with the
first remaining segment at depth 0, leaving the mask unchanged.  The first
component is the mask after the call, the second the error, if any. -/
def scalarDeserializeMask (typeStr : String) (mask : Bool) (segs : List String) :
    Bool × Option DeserializeMaskError :=
  match segs with
  | [] => (true, none)
  | s :: _ => (mask, some ⟨typeStr, s, 0⟩)

/-- The maskable!(u32) instantiation of deserialize_mask. -/
def u32DeserializeMask : Bool → List String → Bool × Option DeserializeMaskError :=
  scalarDeserializeMask "u32"

/-- The maskable!(String) instantiation of deserialize_mask. -/
def stringDeserializeMask : Bool → List String → Bool × Option DeserializeMaskError :=
  scalarDeserializeMask "String"

/-- AbsoluteMaskable::apply_mask generated by the maskable! macro for scalar
terminals: overwrite the destination with other when the boolean mask is
true, otherwise leave it untouched. -/
def scalarApplyMask {α : Type} (self other : α) (mask : Bool) : α :=
  if mask then other else self

/-- The maskable!(u32) instantiation of apply_mask (u32 values as Nat; the
operation only moves values, so no arithmetic overflow can occur). -/
def u32ApplyMask : Nat → Nat → Bool → Nat := scalarApplyMask

/-- The maskable!(String) instantiation of apply_mask. -/
def stringApplyMask : String → String → Bool → String := scalarApplyMask

/-- The blanket impl OptionalMaskable for T : AbsoluteMaskable: perform the
unconditional merge and report true. -/
def optionalOfAbsolute {α μ : Type} (apply : α → α → μ → α) :
    α → α → μ → α × Bool :=
  fun self src mask => (apply self src mask, true)

/-- AbsoluteMaskable for Option T, parameterised by the inner type's
optional-aware applier, its Default value, and the mask shape's Default
value.  Mirrors the source: short-circuit on a default mask, then the
four-way presence match. -/
def optionApplyMask {α μ : Type} [DecidableEq μ]
    (inner : α → α → μ → α × Bool) (dflt : α) (mdef : μ)
    (self src : Option α) (mask : μ) : Option α :=
  if mask = mdef then self
  else
    match self, src with
    | some s, some o =>
      let r := inner s o mask
      if r.2 then some r.1 else none
    | some _, none => none
    | none, some o =>
      let r := inner dflt o mask
      if r.2 then some r.1 else none
    | none, none => none

/-- apply_mask of Option u32: inner optional-aware applier from the blanket
impl over u32, Default 0, mask shape bool with default false. -/
def optionU32Apply : Option Nat → Option Nat → Bool → Option Nat :=
  optionApplyMask (optionalOfAbsolute u32ApplyMask) 0 false

/-- apply_mask of Option String. -/
def optionStringApply : Option String → Option String → Bool → Option String :=
  optionApplyMask (optionalOfAbsolute stringApplyMask) "" false

/-- apply_mask of Option (Option u32): the inner Option u32 is
AbsoluteMaskable, hence OptionalMaskable through the blanket impl, with
Default none; the mask shape is still bool. -/
def optionOptionU32Apply :
    Option (Option Nat) → Option (Option Nat) → Bool → Option (Option Nat) :=
  optionApplyMask (optionalOfAbsolute optionU32Apply) none false

/-- An optional-aware applier that is idempotent (repeating it changes
neither the destination nor the verdict) yet reports false on a true
destination: it keeps the destination and reports its negation. -/
def cBadApply : Bool → Bool → Bool → Bool × Bool :=
  fun self _ _ => (self, !self)

/-- Claim C1: for Option T apply_mask under a mask different from the mask
shape's default: an absent source leaves the destination absent (a present
destination is cleared, an absent one stays absent); a present source runs
the inner optional-aware applier on the destination's existing inner value,
or on a fresh default when the destination is absent, and the destination
ends present holding the merged value exactly when the verdict is true, and
absent when it is false. -/
theorem optionApplyMask_nontrivial_cases {α μ : Type} [DecidableEq μ]
    (inner : α → α → μ → α × Bool) (dflt : α) (mdef : μ) (m : μ)
    (h : m ≠ mdef) :
    optionApplyMask inner dflt mdef none none m = none ∧
    (∀ s, optionApplyMask inner dflt mdef (some s) none m = none) ∧
    (∀ s o,
      ((inner s o m).2 = true →
        optionApplyMask inner dflt mdef (some s) (some o) m =
          some (inner s o m).1) ∧
      ((inner s o m).2 = false →
        optionApplyMask inner dflt mdef (some s) (some o) m = none)) ∧
    (∀ o,
      ((inner dflt o m).2 = true →
        optionApplyMask inner dflt mdef none (some o) m =
          some (inner dflt o m).1) ∧
      ((inner dflt o m).2 = false →
        optionApplyMask inner dflt mdef none (some o) m = none)) := by
  refine ⟨?_, ?_, ?_, ?_⟩
  · simp [optionApplyMask, h]
  · intro s; simp [optionApplyMask, h]
  · intro s o
    constructor <;> intro hv <;> simp [optionApplyMask, h, hv]
  · intro o
    constructor <;> intro hv <;> simp [optionApplyMask, h, hv]

/-- Witness for C1: merging some 2 into some 1 under the true mask on
Option u32 yields some 2, via the present/present case with a true
verdict. -/
theorem optionApplyMask_nontrivial_cases_witness :
    optionU32Apply (some 1) (some 2) true = some 2 := by
  have h :=
    (optionApplyMask_nontrivial_cases (optionalOfAbsolute u32ApplyMask) 0 false
      true (by decide)).2.2.1 1 2
  exact h.1 rfl

/-- Claim C3: applying a mask equal to the mask shape's default leaves the
destination entirely unchanged for every destination/source presence
combination. -/
theorem optionApplyMask_default_noop {α μ : Type} [DecidableEq μ]
    (inner : α → α → μ → α × Bool) (dflt : α) (mdef : μ)
    (self src : Option α) :
    optionApplyMask inner dflt mdef self src mdef = self := by
  simp [optionApplyMask]

/-- Claim C4: the blanket-derived optional-aware applier performs exactly
the unconditional merge and returns true, for every destination, source and
mask. -/
theorem optionalOfAbsolute_spec {α μ : Type} (g : α → α → μ → α)
    (self src : α) (m : μ) :
    (optionalOfAbsolute g self src m).1 = g self src m ∧
    (optionalOfAbsolute g self src m).2 = true :=
  ⟨rfl, rfl⟩

/-- Claim C5: for the scalar terminals u32 and String, deserialize_mask on
an empty segment list sets the flag to true and succeeds, and on a
non-empty list returns the unchanged mask with an error carrying the
terminal's type name, the first remaining segment, and depth 0 — and these
equations cover all cases, so it errors exactly on non-empty input. -/
theorem scalarDeserializeMask_contract :
    (∀ mask : Bool, u32DeserializeMask mask [] = (true, none)) ∧
    (∀ (mask : Bool) (s : String) (rest : List String),
      u32DeserializeMask mask (s :: rest) = (mask, some ⟨"u32", s, 0⟩)) ∧
    (∀ mask : Bool, stringDeserializeMask mask [] = (true, none)) ∧
    (∀ (mask : Bool) (s : String) (rest : List String),
      stringDeserializeMask mask (s :: rest) = (mask, some ⟨"String", s, 0⟩)) :=
  ⟨fun _ => rfl, fun _ _ _ => rfl, fun _ => rfl, fun _ _ _ => rfl⟩

/-- Claim C2 counterexample: on Option (Option u32), with both sides
present (destination some (some 1), source some none) and the full mask,
the merge leaves the inner optional layer absent, yet the outer layer stays
present wrapping that collapsed inner value: the result is some none, not
none. -/
theorem optionOptionU32Apply_wraps_collapsed_inner :
    optionOptionU32Apply (some (some 1)) (some none) true = some none ∧
    optionOptionU32Apply (some (some 1)) (some none) true ≠ none := by
  exact ⟨rfl, by decide⟩

/-- Claim C2 (amended): an optional layer merging two present values
collapses to absent exactly when the boolean verdict of the inner
optional-aware applier is false; since inner Option layers get their
optional-aware applier from the blanket impl, whose verdict is always true,
an enclosing layer never collapses in the present/present case and may end
present wrapping an absent inner value. -/
theorem optionApplyMask_collapse_iff {α μ : Type} [DecidableEq μ]
    (inner : α → α → μ → α × Bool) (dflt : α) (mdef : μ)
    (s o : α) (m : μ) (h : m ≠ mdef) :
    optionApplyMask inner dflt mdef (some s) (some o) m = none ↔
      (inner s o m).2 = false := by
  rcases hv : inner s o m with ⟨v, b⟩
  cases b <;> simp [optionApplyMask, h, hv]

/-- Witness for C2 (amended): on Option u32 with destination some 1 and
source some 2 under the true mask, the result is absent iff the blanket
verdict is false — and it is not. -/
theorem optionApplyMask_collapse_iff_witness :
    (optionU32Apply (some 1) (some 2) true = none ↔
      (optionalOfAbsolute u32ApplyMask 1 2 true).2 = false) :=
  optionApplyMask_collapse_iff (optionalOfAbsolute u32ApplyMask) 0 false 1 2
    true (by decide)

/-- Claim C6: scalar replace law for the terminals u32 and String: a true
mask overwrites the destination with the source, a false mask leaves the
destination unchanged; the operation is a total function. -/
theorem scalarApplyMask_replace_law :
    (∀ d s : Nat, u32ApplyMask d s true = s ∧ u32ApplyMask d s false = d) ∧
    (∀ d s : String,
      stringApplyMask d s true = s ∧ stringApplyMask d s false = d) :=
  ⟨fun _ _ => ⟨rfl, rfl⟩, fun _ _ => ⟨rfl, rfl⟩⟩

/-- Claim C7 counterexample: an inner optional-aware applier that is
idempotent — repeating it changes neither the resulting value nor the
verdict — for which the Option apply_mask is not idempotent: one
application of (some false, true-mask) to some true yields none, a second
application yields some false. -/
theorem optionApplyMask_idem_fails_for_idem_inner :
    (∀ a b m : Bool, cBadApply (cBadApply a b m).1 b m = cBadApply a b m) ∧
    optionApplyMask cBadApply false false
        (optionApplyMask cBadApply false false (some true) (some false) true)
        (some false) true ≠
      optionApplyMask cBadApply false false (some true) (some false) true := by
  exact ⟨by decide, by decide⟩

/-- Claim C7 (amended): applying apply_mask twice with the same source and
mask equals applying it once, for the scalar terminals, and for Option T
whenever the inner optional-aware applier is idempotent and always reports
true — as every blanket-derived applier does, in particular those of
Option u32 and Option String. -/
theorem applyMask_idempotent {α β μ : Type} [DecidableEq μ]
    (inner : β → β → μ → β × Bool) (dflt : β) (mdef : μ)
    (hidem : ∀ a b m, inner (inner a b m).1 b m = inner a b m)
    (htrue : ∀ a b m, (inner a b m).2 = true) :
    (∀ (d s : α) (b : Bool),
      scalarApplyMask (scalarApplyMask d s b) s b = scalarApplyMask d s b) ∧
    (∀ (self src : Option β) (m : μ),
      optionApplyMask inner dflt mdef
          (optionApplyMask inner dflt mdef self src m) src m =
        optionApplyMask inner dflt mdef self src m) := by
  constructor
  · intro d s b; cases b <;> rfl
  · intro self src m
    by_cases hm : m = mdef
    · subst hm; simp [optionApplyMask]
    · cases self <;> cases src <;>
        simp [optionApplyMask, hm, htrue, hidem]

/-- Witness for C7 (amended): on Option u32, whose inner applier is blanket
derived, applying (some 2, true) twice to some 1 equals applying it once. -/
theorem applyMask_idempotent_witness :
    optionU32Apply (optionU32Apply (some 1) (some 2) true) (some 2) true =
      optionU32Apply (some 1) (some 2) true :=
  (applyMask_idempotent (α := Nat) (optionalOfAbsolute u32ApplyMask) 0 false
    (fun a b m => by cases m <;> rfl) (fun _ _ _ => rfl)).2
    (some 1) (some 2) true

/-- Claim C8: scalar deserialize_mask is additive and failure-atomic: a
call never turns the flag from true back to false (so folding several path
lists into one mask is monotone), and a call that returns an error leaves
the mask exactly as it was before the call. -/
theorem scalarDeserializeMask_additive_atomic
    (t : String) (mask : Bool) (segs : List String) :
    (mask = true → (scalarDeserializeMask t mask segs).1 = true) ∧
    ((scalarDeserializeMask t mask segs).2.isSome = true →
      (scalarDeserializeMask t mask segs).1 = mask) := by
  cases segs <;> simp [scalarDeserializeMask]

/-- Witness for C8: a failing u32 parse on an already-true flag keeps it
true, and a failing String parse on a false flag keeps it false. -/
theorem scalarDeserializeMask_additive_atomic_witness :
    (scalarDeserializeMask "u32" true ["x"]).1 = true ∧
    (scalarDeserializeMask "String" false ["y"]).1 = false :=
  ⟨(scalarDeserializeMask_additive_atomic "u32" true ["x"]).1 rfl,
   (scalarDeserializeMask_additive_atomic "String" false ["y"]).2 rfl⟩

/-- Claim C9 counterexample: the display message wraps the type name in
backticks, so for the error with type u32 and field x it is not the string
with a bare type name that the claimed shape prescribes. -/
theorem displayMessage_backtick_counterexample :
    displayMessage ⟨"u32", "x", 0⟩ = "there\x27s no \"x\" in `u32`" ∧
    displayMessage ⟨"u32", "x", 0⟩ ≠ "there\x27s no \"x\" in u32" := by
  exact ⟨rfl, by decide⟩

/-- Claim C9 (amended): every DeserializeMaskError exposes the offending
field name, the type name, and the nesting depth as structured data, and
its display message is exactly: there\x27s no "<field>" in `<type>` —
with the type name wrapped in backticks. -/
theorem deserializeMaskError_surface (t f : String) (d : Nat) :
    (DeserializeMaskError.mk t f d).type_str = t ∧
    (DeserializeMaskError.mk t f d).field = f ∧
    (DeserializeMaskError.mk t f d).depth = d ∧
    displayMessage (DeserializeMaskError.mk t f d) =
      "there\x27s no \"" ++ f ++ "\" in `" ++ t ++ "`" :=
  ⟨rfl, rfl, rfl, rfl⟩

/-- Claim C10: a blanket-derived inner optional-aware applier always
reports true, so Option T apply_mask over it never turns a present
destination merged with a present source into an absent one, under any
mask: the collapse branch of the present/present case is unreachable. -/
theorem optionApplyMask_blanket_present_stays {α μ : Type} [DecidableEq μ]
    (g : α → α → μ → α) (dflt : α) (mdef : μ) (a b : α) (m : μ) :
    (optionalOfAbsolute g a b m).2 = true ∧
    optionApplyMask (optionalOfAbsolute g) dflt mdef (some a) (some b) m ≠
      none := by
  constructor
  · rfl
  · by_cases hm : m = mdef <;> simp [optionApplyMask, optionalOfAbsolute, hm]
